import Mathlib

/-!
Shallow embedding of `carsim_service/carsim.py` (the CarSim data-broker
supervisor): the gRPC failure classifier, the registration client, the
connectivity-change handler, the supervisor loop body, the publish
operation and the shutdown path, together with theorems about them.

The gRPC transport is modelled by oracles: a registration broker is a
function from a registration request to either a reply or an error, and
an update stub is a function from an update request to an optional
failing status code. Every function additionally returns the list of
RPC requests it issued, so that claims about how many RPCs are sent
(and whether one is sent at all) are statable.
-/

namespace CarSim

/-- The gRPC status codes (`grpc.StatusCode`). -/
inductive StatusCode where
  | OK
  | CANCELLED
  | UNKNOWN
  | INVALID_ARGUMENT
  | DEADLINE_EXCEEDED
  | NOT_FOUND
  | ALREADY_EXISTS
  | PERMISSION_DENIED
  | RESOURCE_EXHAUSTED
  | FAILED_PRECONDITION
  | ABORTED
  | OUT_OF_RANGE
  | UNIMPLEMENTED
  | INTERNAL
  | UNAVAILABLE
  | DATA_LOSS
  | UNAUTHENTICATED
  deriving DecidableEq, Repr

/-- Channel connectivity states (`grpc.ChannelConnectivity`). -/
inductive ChannelConnectivity where
  | IDLE
  | CONNECTING
  | READY
  | TRANSIENT_FAILURE
  | SHUTDOWN
  deriving DecidableEq, Repr

/-- `is_grpc_fatal_error` (carsim.py lines 39-50): returns `true` for
UNAVAILABLE, UNKNOWN, UNAUTHENTICATED and INTERNAL, `false` otherwise.
The python function also logs; logging has no effect on state. -/
def is_grpc_fatal_error (e : StatusCode) : Bool :=
  if e == StatusCode.UNAVAILABLE
      || e == StatusCode.UNKNOWN
      || e == StatusCode.UNAUTHENTICATED
      || e == StatusCode.INTERNAL then
    true
  else
    false

/-- `sdv.databroker.v1.types_pb2.DataType` (only FLOAT is used by carsim). -/
inductive DataType where
  | FLOAT
  | DOUBLE
  | BOOL
  | INT32
  | STRING
  deriving DecidableEq, Repr

/-- `sdv.databroker.v1.types_pb2.ChangeType` (only CONTINUOUS is used). -/
inductive ChangeType where
  | STATIC
  | ON_CHANGE
  | CONTINUOUS
  deriving DecidableEq, Repr

/-- `RegistrationMetadata` protobuf message. -/
structure RegistrationMetadata where
  name : String
  data_type : DataType
  description : String
  change_type : ChangeType
  deriving DecidableEq, Repr

/-- `RegisterDatapointsRequest` protobuf message: a repeated field of
registration metadata entries. -/
structure RegisterDatapointsRequest where
  list : List RegistrationMetadata
  deriving DecidableEq, Repr

/-- Reply to a registration request: the broker-assigned identifiers,
indexed by name (a protobuf map field). -/
structure RegisterDatapointsReply where
  results : List (String × Nat)
  deriving DecidableEq, Repr

/-- An exception escaping a registration RPC: either a `grpc.RpcError`
carrying a status code, or any other exception. -/
inductive RegFailure where
  | RpcFailure (code : StatusCode)
  | OtherFailure
  deriving DecidableEq, Repr

/-- Oracle for the registration RPC (`self._stub.RegisterDatapoints`). -/
def Broker : Type := RegisterDatapointsRequest → Except RegFailure RegisterDatapointsReply

/-- Python dict assignment `d[k] = v`: replaces the binding of `k` if
present, otherwise appends it. -/
def dictSet (d : List (String × Nat)) (k : String) (v : Nat) : List (String × Nat) :=
  match d with
  | [] => [(k, v)]
  | (k', v') :: rest => if k' = k then (k, v) :: rest else (k', v') :: dictSet rest k v

/-- Protobuf map access `m[k]`: a missing key yields the default value 0
(protobuf maps never raise on access). -/
def mapGet (m : List (String × Nat)) (k : String) : Nat :=
  (m.lookup k).getD 0

/-- The mutable attributes of the `CarSim` object that the supervisor,
the connectivity handler and publishers touch: `_ids`, `_connected`,
`_registered`, `_shutdown` (carsim.py lines 59-62). -/
structure CarSimState where
  ids : List (String × Nat)
  connected : Bool
  registered : Bool
  shutdown_flag : Bool
  deriving DecidableEq, Repr

/-- State of `CarSim.__init__` after construction (line 56-66): empty
identifier map, all flags false. -/
def initState : CarSimState :=
  { ids := [], connected := false, registered := false, shutdown_flag := false }

/-- The request built by `_register` for one data point (lines 157-163):
a single-entry list with empty description. -/
def regRequest (name : String) (data_type : DataType) (change_type : ChangeType) :
    RegisterDatapointsRequest :=
  { list := [{ name := name, data_type := data_type, description := "",
               change_type := change_type }] }

/-- Result of one `_register` call: the state after the call, the request
that was sent, and the exception (if the RPC raised). -/
structure RegCallResult where
  state : CarSimState
  request : RegisterDatapointsRequest
  error : Option RegFailure
  deriving Repr

/-- `_register` (lines 156-165): builds a single-entry request, performs
the RPC, and on success stores `response.results[name]` into `self._ids`.
On an RPC error the exception propagates and `_ids` is untouched, since
the dict assignment comes after the call. -/
def _register (broker : Broker) (s : CarSimState) (name : String)
    (data_type : DataType) (change_type : ChangeType) : RegCallResult :=
  match broker (regRequest name data_type change_type) with
  | Except.error e =>
      { state := s, request := regRequest name data_type change_type, error := some e }
  | Except.ok response =>
      { state := { s with ids := dictSet s.ids name (mapGet response.results name) },
        request := regRequest name data_type change_type, error := none }

/-- Result of a `register_datapoints` run: final state, all requests that
were actually sent, and the exception that escaped, if any. -/
structure RegRunResult where
  state : CarSimState
  requests : List RegisterDatapointsRequest
  error : Option RegFailure
  deriving Repr

/-- `register_datapoints` (lines 144-151): registers `Vehicle.Speed`
then `Vehicle.Acceleration`, each through its own `_register` call
(via the `register` wrapper, line 153-154). If the first call raises,
the exception propagates and the second call is never made; if the
second raises, the identifier already stored by the first call stays
in `_ids`. -/
def register_datapoints (broker : Broker) (s : CarSimState) : RegRunResult :=
  let r1 := _register broker s "Vehicle.Speed" DataType.FLOAT ChangeType.CONTINUOUS
  match r1.error with
  | some e => { state := r1.state, requests := [r1.request], error := some e }
  | none =>
      let r2 := _register broker r1.state "Vehicle.Acceleration"
        DataType.FLOAT ChangeType.CONTINUOUS
      { state := r2.state, requests := [r1.request, r2.request], error := r2.error }

/-- The condition of the handler's outer `if` (lines 83-86):
`connectivity == READY or connectivity == IDLE`. -/
def isReadyState (c : ChannelConnectivity) : Bool :=
  c == ChannelConnectivity.READY || c == ChannelConnectivity.IDLE

/-- `on_broker_connectivity_change` (lines 81-109). On READY/IDLE while
not connected: run `register_datapoints`; on success set
`_registered = True`; a `grpc.RpcError` or any other exception is
swallowed (only classified and logged); afterwards set
`_connected = True` (the assignment at line 101 is inside the
`if not self._connected` block). On READY/IDLE while already connected:
nothing happens. On any other connectivity: set `_connected = False`
and `_registered = False` (lines 108-109); `_ids` is not touched.
Returns the new state and the registration requests sent while
handling the notification. -/
def on_broker_connectivity_change (broker : Broker) (s : CarSimState)
    (connectivity : ChannelConnectivity) :
    CarSimState × List RegisterDatapointsRequest :=
  if isReadyState connectivity then
    if !s.connected then
      let r := register_datapoints broker s
      match r.error with
      | none => ({ r.state with registered := true, connected := true }, r.requests)
      | some _ => ({ r.state with connected := true }, r.requests)
    else (s, [])
  else
    ({ s with connected := false, registered := false }, [])

/-- One pass of the body of `_run`'s `while` loop (lines 112-131):
while unconnected, sleep and continue; while connected-but-unregistered,
attempt `register_datapoints`, set `_registered = True` on success and
swallow any exception (sleeping before the next pass); while connected
and registered, idle. Sleeps have no effect on state. -/
def run_iteration (broker : Broker) (s : CarSimState) : CarSimState :=
  if !s.connected then s
  else if !s.registered then
    let r := register_datapoints broker s
    match r.error with
    | none => { r.state with registered := true }
    | some _ => r.state
  else s

/-- The guard of the `while` loop (line 112): the loop keeps running
exactly while `self._shutdown is False`. -/
def run_guard (s : CarSimState) : Bool := s.shutdown_flag == false

/-- The `CarSim` object together with its channel (`self._channel`);
`channel_open` models whether the gRPC channel has been closed. -/
structure CarSimFull where
  sim : CarSimState
  channel_open : Bool
  deriving DecidableEq, Repr

/-- `close` (lines 133-136): awaits `self._channel.close()` (the channel
attribute is always truthy once `connect_to_databroker` assigned it).
No other attribute is touched; in particular `_shutdown` is not set —
nothing anywhere in carsim.py assigns `_shutdown` after `__init__`. -/
def close (f : CarSimFull) : CarSimFull :=
  { f with channel_open := false }

/-- An exception escaping `set_float_datapoint`: the `KeyError` raised
by `self._ids[name]` on an unknown name, or the re-raised
`grpc.RpcError` from the update RPC. -/
inductive PublishFailure where
  | KeyFailure (name : String)
  | RpcFailure (code : StatusCode)
  deriving DecidableEq, Repr

/-- `UpdateDatapointsRequest` protobuf message: identifier-indexed
datapoint values. Float payloads are carried opaquely (as `Int` here);
no claim depends on float arithmetic. -/
structure UpdateDatapointsRequest where
  datapoints : List (Nat × Int)
  deriving DecidableEq, Repr

/-- Oracle for the update RPC (`self._stub.UpdateDatapoints`): `none`
means success, `some code` means the call raised a `grpc.RpcError`
with that status code. -/
def UpdateStub : Type := UpdateDatapointsRequest → Option StatusCode

/-- Result of a `set_float_datapoint` call: the state afterwards, the
update requests actually issued, and the exception surfaced, if any. -/
structure PublishResult where
  state : CarSimState
  requests : List UpdateDatapointsRequest
  error : Option PublishFailure
  deriving Repr

/-- `set_float_datapoint` (lines 167-177): `_id = self._ids[name]`
raises `KeyError` before any request is built when the name is
unregistered; otherwise the update RPC is issued and, if it raises a
`grpc.RpcError`, the code executes
`self._connected = is_grpc_fatal_error(err)` and re-raises. -/
def set_float_datapoint (stub : UpdateStub) (s : CarSimState)
    (name : String) (value : Int) : PublishResult :=
  match s.ids.lookup name with
  | none => { state := s, requests := [], error := some (PublishFailure.KeyFailure name) }
  | some _id =>
      let request : UpdateDatapointsRequest := { datapoints := [(_id, value)] }
      match stub request with
      | none => { state := s, requests := [request], error := none }
      | some code =>
          { state := { s with connected := is_grpc_fatal_error code },
            requests := [request],
            error := some (PublishFailure.RpcFailure code) }

/-- An event of the supervisor system: a connectivity notification
delivered to the handler, or one pass of the supervisor loop body.
Each event carries the broker oracle that answers any registration
RPC made while processing it. -/
inductive Event where
  | Notify (connectivity : ChannelConnectivity) (broker : Broker)
  | LoopStep (broker : Broker)

/-- The supervisor state together with history observations: the most
recent connectivity notification, and whether a registration call has
completed successfully since the most recent transition into the
connected state (cleared on every non-ready notification). -/
structure TraceState where
  sim : CarSimState
  lastNotify : Option ChannelConnectivity
  regSinceTransition : Bool

/-- Processing of one event. The `sim` component evolves exactly by
`on_broker_connectivity_change` / `run_iteration`; the history fields
record what the event was and whether a registration call succeeded. -/
def stepEvent (t : TraceState) (e : Event) : TraceState :=
  match e with
  | Event.Notify c broker =>
      { sim := (on_broker_connectivity_change broker t.sim c).fst
        lastNotify := some c
        regSinceTransition :=
          if isReadyState c then
            if !t.sim.connected then (register_datapoints broker t.sim).error.isNone
            else t.regSinceTransition
          else false }
  | Event.LoopStep broker =>
      { sim := run_iteration broker t.sim
        lastNotify := t.lastNotify
        regSinceTransition :=
          if t.sim.connected && !t.sim.registered
              && (register_datapoints broker t.sim).error.isNone then true
          else t.regSinceTransition }

/-- The initial trace state: freshly constructed `CarSim`, no
notification received yet. -/
def initTrace : TraceState :=
  { sim := initState, lastNotify := none, regSinceTransition := false }

/-- Run a sequence of events from the initial state. -/
def runEvents (events : List Event) : TraceState :=
  events.foldl stepEvent initTrace

/-- A broker that accepts every registration request, assigning
identifier 1 to `Vehicle.Speed` and 2 to every other name. -/
def demoBroker : Broker := fun request =>
  Except.ok { results := request.list.map (fun m => (m.name, if m.name == "Vehicle.Speed" then 1 else 2)) }

/-- A broker that accepts the request for `Vehicle.Speed` and fails the
request for any other name with UNAVAILABLE. -/
def partialBroker : Broker := fun request =>
  if request.list.map (fun m => m.name) = ["Vehicle.Speed"] then
    Except.ok { results := [("Vehicle.Speed", 1)] }
  else
    Except.error (RegFailure.RpcFailure StatusCode.UNAVAILABLE)

/-- An update stub that accepts every update. -/
def okStub : UpdateStub := fun _ => none

/-- An update stub that fails every update with the fatal code
UNAVAILABLE. -/
def unavailableStub : UpdateStub := fun _ => some StatusCode.UNAVAILABLE

/-- A state in which both datapoints are registered and the supervisor
is connected and registered. -/
def connectedState : CarSimState :=
  { ids := [("Vehicle.Speed", 1), ("Vehicle.Acceleration", 2)],
    connected := true, registered := true, shutdown_flag := false }

/-- A state after a disconnect that followed a successful registration:
identifiers still present, flags down. -/
def droppedState : CarSimState :=
  { ids := [("Vehicle.Speed", 1), ("Vehicle.Acceleration", 2)],
    connected := false, registered := false, shutdown_flag := false }

/-- The first `_register` call made by `register_datapoints` (for
`Vehicle.Speed`). -/
def regCall1 (broker : Broker) (s : CarSimState) : RegCallResult :=
  _register broker s "Vehicle.Speed" DataType.FLOAT ChangeType.CONTINUOUS

/-- The second `_register` call made by `register_datapoints` (for
`Vehicle.Acceleration`), starting from the state the first call left. -/
def regCall2 (broker : Broker) (s : CarSimState) : RegCallResult :=
  _register broker (regCall1 broker s).state "Vehicle.Acceleration"
    DataType.FLOAT ChangeType.CONTINUOUS

/-- An update stub that fails every update with the non-fatal code
DEADLINE_EXCEEDED. -/
def deadlineStub : UpdateStub := fun _ => some StatusCode.DEADLINE_EXCEEDED

/-- Invariant of the supervisor trace: whenever `_registered` is true,
the supervisor is connected and a registration call has completed
successfully since the most recent transition into the connected
state; and whenever `_connected` is true, the most recent connectivity
notification reported READY or IDLE. -/
def TraceInv (t : TraceState) : Prop :=
  (t.sim.registered = true → t.sim.connected = true ∧ t.regSinceTransition = true)
  ∧ (t.sim.connected = true → ∃ c, t.lastNotify = some c ∧ isReadyState c = true)

/-! ## Helper lemmas -/

theorem _register_request (broker : Broker) (s : CarSimState) (n : String)
    (dt : DataType) (ct : ChangeType) :
    (_register broker s n dt ct).request = regRequest n dt ct := by
  unfold _register
  cases broker (regRequest n dt ct) <;> rfl

theorem _register_flags (broker : Broker) (s : CarSimState) (n : String)
    (dt : DataType) (ct : ChangeType) :
    (_register broker s n dt ct).state.connected = s.connected
    ∧ (_register broker s n dt ct).state.registered = s.registered
    ∧ (_register broker s n dt ct).state.shutdown_flag = s.shutdown_flag := by
  unfold _register
  cases broker (regRequest n dt ct) <;> exact ⟨rfl, rfl, rfl⟩

theorem _register_ids (broker : Broker) (s : CarSimState) (n : String)
    (dt : DataType) (ct : ChangeType) :
    ((_register broker s n dt ct).error.isSome ∧ (_register broker s n dt ct).state = s)
    ∨ ((_register broker s n dt ct).error = none
        ∧ ∃ v, (_register broker s n dt ct).state = { s with ids := dictSet s.ids n v }) := by
  unfold _register
  cases broker (regRequest n dt ct) with
  | error e => exact Or.inl ⟨rfl, rfl⟩
  | ok response => exact Or.inr ⟨rfl, _, rfl⟩

theorem register_datapoints_flags (broker : Broker) (s : CarSimState) :
    (register_datapoints broker s).state.connected = s.connected
    ∧ (register_datapoints broker s).state.registered = s.registered
    ∧ (register_datapoints broker s).state.shutdown_flag = s.shutdown_flag := by
  have hf1 := _register_flags broker s "Vehicle.Speed" DataType.FLOAT ChangeType.CONTINUOUS
  have hf2 := _register_flags broker
    (_register broker s "Vehicle.Speed" DataType.FLOAT ChangeType.CONTINUOUS).state
    "Vehicle.Acceleration" DataType.FLOAT ChangeType.CONTINUOUS
  simp only [register_datapoints]
  cases he : (_register broker s "Vehicle.Speed" DataType.FLOAT ChangeType.CONTINUOUS).error with
  | none =>
      simp only [he]
      exact ⟨hf2.1.trans hf1.1, hf2.2.1.trans hf1.2.1, hf2.2.2.trans hf1.2.2⟩
  | some e =>
      simp only [he]
      exact hf1

theorem register_datapoints_eq_fail1 (broker : Broker) (s : CarSimState) (e : RegFailure)
    (he : (regCall1 broker s).error = some e) :
    register_datapoints broker s =
      { state := (regCall1 broker s).state,
        requests := [(regCall1 broker s).request],
        error := some e } := by
  unfold regCall1 at he
  simp only [register_datapoints, regCall1, he]

theorem register_datapoints_eq_ok1 (broker : Broker) (s : CarSimState)
    (he : (regCall1 broker s).error = none) :
    register_datapoints broker s =
      { state := (regCall2 broker s).state,
        requests := [(regCall1 broker s).request, (regCall2 broker s).request],
        error := (regCall2 broker s).error } := by
  unfold regCall1 at he
  simp only [register_datapoints, regCall1, regCall2, he]

theorem handler_nonready_eq (broker : Broker) (s : CarSimState)
    (c : ChannelConnectivity) (hr : isReadyState c = false) :
    on_broker_connectivity_change broker s c
      = ({ s with connected := false, registered := false }, []) := by
  simp [on_broker_connectivity_change, hr]

theorem handler_ready_connected_eq (broker : Broker) (s : CarSimState)
    (c : ChannelConnectivity) (hr : isReadyState c = true) (h : s.connected = true) :
    on_broker_connectivity_change broker s c = (s, []) := by
  simp [on_broker_connectivity_change, hr, h]

theorem handler_ready_unconnected_success_eq (broker : Broker) (s : CarSimState)
    (c : ChannelConnectivity) (hr : isReadyState c = true) (h : s.connected = false)
    (he : (register_datapoints broker s).error = none) :
    (on_broker_connectivity_change broker s c).fst
      = { (register_datapoints broker s).state with registered := true, connected := true } := by
  simp [on_broker_connectivity_change, hr, h, he]

theorem handler_ready_unconnected_failure_eq (broker : Broker) (s : CarSimState)
    (c : ChannelConnectivity) (e : RegFailure)
    (hr : isReadyState c = true) (h : s.connected = false)
    (he : (register_datapoints broker s).error = some e) :
    (on_broker_connectivity_change broker s c).fst
      = { (register_datapoints broker s).state with connected := true } := by
  simp [on_broker_connectivity_change, hr, h, he]

theorem run_iteration_unconnected_eq (broker : Broker) (s : CarSimState)
    (h : s.connected = false) : run_iteration broker s = s := by
  simp [run_iteration, h]

theorem run_iteration_registered_eq (broker : Broker) (s : CarSimState)
    (h : s.connected = true) (hreg : s.registered = true) :
    run_iteration broker s = s := by
  simp [run_iteration, h, hreg]

theorem run_iteration_success_eq (broker : Broker) (s : CarSimState)
    (h : s.connected = true) (hreg : s.registered = false)
    (he : (register_datapoints broker s).error = none) :
    run_iteration broker s = { (register_datapoints broker s).state with registered := true } := by
  simp [run_iteration, h, hreg, he]

theorem run_iteration_failure_eq (broker : Broker) (s : CarSimState) (e : RegFailure)
    (h : s.connected = true) (hreg : s.registered = false)
    (he : (register_datapoints broker s).error = some e) :
    run_iteration broker s = (register_datapoints broker s).state := by
  simp [run_iteration, h, hreg, he]

theorem stepEvent_inv (t : TraceState) (e : Event) (h : TraceInv t) :
    TraceInv (stepEvent t e) := by
  obtain ⟨h1, h2⟩ := h
  cases e with
  | Notify c broker =>
      cases hr : isReadyState c with
      | false =>
          have hstep : stepEvent t (Event.Notify c broker)
              = { sim := { t.sim with connected := false, registered := false },
                  lastNotify := some c, regSinceTransition := false } := by
            simp [stepEvent, hr, handler_nonready_eq broker t.sim c hr]
          rw [hstep]
          exact ⟨(fun hreg => nomatch hreg), (fun hcon => nomatch hcon)⟩
      | true =>
          cases hcon : t.sim.connected with
          | true =>
              have hstep : stepEvent t (Event.Notify c broker)
                  = { sim := t.sim, lastNotify := some c,
                      regSinceTransition := t.regSinceTransition } := by
                simp [stepEvent, hr, hcon, handler_ready_connected_eq broker t.sim c hr hcon]
              rw [hstep]
              exact ⟨fun hreg => h1 hreg, fun _ => ⟨c, rfl, hr⟩⟩
          | false =>
              cases he : (register_datapoints broker t.sim).error with
              | none =>
                  have hstep : stepEvent t (Event.Notify c broker)
                      = { sim := { (register_datapoints broker t.sim).state with
                                    registered := true, connected := true },
                          lastNotify := some c, regSinceTransition := true } := by
                    simp [stepEvent, hr, hcon, he,
                      handler_ready_unconnected_success_eq broker t.sim c hr hcon he]
                  rw [hstep]
                  exact ⟨fun _ => ⟨rfl, rfl⟩, fun _ => ⟨c, rfl, hr⟩⟩
              | some e =>
                  have hreg0 : t.sim.registered = false := by
                    cases hre : t.sim.registered with
                    | false => rfl
                    | true => rw [(h1 hre).1] at hcon; exact nomatch hcon
                  have hstep : stepEvent t (Event.Notify c broker)
                      = { sim := { (register_datapoints broker t.sim).state with
                                    connected := true },
                          lastNotify := some c, regSinceTransition := false } := by
                    simp [stepEvent, hr, hcon, he,
                      handler_ready_unconnected_failure_eq broker t.sim c e hr hcon he]
                  rw [hstep]
                  refine ⟨fun hreg => ?_, fun _ => ⟨c, rfl, hr⟩⟩
                  have hflags := (register_datapoints_flags broker t.sim).2.1
                  exact nomatch ((hflags.trans hreg0).symm.trans hreg)
  | LoopStep broker =>
      cases hcon : t.sim.connected with
      | false =>
          have hstep : stepEvent t (Event.LoopStep broker)
              = { sim := t.sim, lastNotify := t.lastNotify,
                  regSinceTransition := t.regSinceTransition } := by
            simp [stepEvent, hcon, run_iteration_unconnected_eq broker t.sim hcon]
          rw [hstep]
          exact ⟨h1, h2⟩
      | true =>
          cases hreg : t.sim.registered with
          | true =>
              have hstep : stepEvent t (Event.LoopStep broker)
                  = { sim := t.sim, lastNotify := t.lastNotify,
                      regSinceTransition := t.regSinceTransition } := by
                simp [stepEvent, hcon, hreg,
                  run_iteration_registered_eq broker t.sim hcon hreg]
              rw [hstep]
              exact ⟨h1, h2⟩
          | false =>
              cases he : (register_datapoints broker t.sim).error with
              | none =>
                  have hstep : stepEvent t (Event.LoopStep broker)
                      = { sim := { (register_datapoints broker t.sim).state with
                                    registered := true },
                          lastNotify := t.lastNotify, regSinceTransition := true } := by
                    simp [stepEvent, hcon, hreg, he,
                      run_iteration_success_eq broker t.sim hcon hreg he]
                  rw [hstep]
                  refine ⟨fun _ => ⟨?_, rfl⟩, fun _ => h2 hcon⟩
                  exact ((register_datapoints_flags broker t.sim).1).trans hcon
              | some e =>
                  have hstep : stepEvent t (Event.LoopStep broker)
                      = { sim := (register_datapoints broker t.sim).state,
                          lastNotify := t.lastNotify,
                          regSinceTransition := t.regSinceTransition } := by
                    simp [stepEvent, hcon, hreg, he,
                      run_iteration_failure_eq broker t.sim e hcon hreg he]
                  rw [hstep]
                  have hflags := register_datapoints_flags broker t.sim
                  refine ⟨fun hreg' => ?_, fun _ => h2 hcon⟩
                  exact nomatch ((hflags.2.1.trans hreg).symm.trans hreg')

theorem foldl_stepEvent_inv (events : List Event) (t : TraceState) (h : TraceInv t) :
    TraceInv (events.foldl stepEvent t) := by
  induction events generalizing t with
  | nil => exact h
  | cons e es ih => exact ih (stepEvent t e) (stepEvent_inv t e h)

theorem runEvents_inv (events : List Event) : TraceInv (runEvents events) :=
  foldl_stepEvent_inv events initTrace
    ⟨(fun hreg => nomatch hreg), (fun hcon => nomatch hcon)⟩

theorem regCall1_cases (broker : Broker) (s : CarSimState) :
    ((regCall1 broker s).error.isSome = true ∧ (regCall1 broker s).state = s)
    ∨ ((regCall1 broker s).error = none
        ∧ ∃ v, (regCall1 broker s).state = { s with ids := dictSet s.ids "Vehicle.Speed" v }) :=
  _register_ids broker s "Vehicle.Speed" DataType.FLOAT ChangeType.CONTINUOUS

theorem regCall2_cases (broker : Broker) (s : CarSimState) :
    ((regCall2 broker s).error.isSome = true
        ∧ (regCall2 broker s).state = (regCall1 broker s).state)
    ∨ ((regCall2 broker s).error = none
        ∧ ∃ w, (regCall2 broker s).state
            = { (regCall1 broker s).state with
                 ids := dictSet (regCall1 broker s).state.ids "Vehicle.Acceleration" w }) :=
  _register_ids broker (regCall1 broker s).state "Vehicle.Acceleration"
    DataType.FLOAT ChangeType.CONTINUOUS

/-! ## Claims -/

/-- C1: failing evaluation for the publish error-path claim. The code
executes `self._connected = is_grpc_fatal_error(err)` (line 176), so a
publish failing with the FATAL code UNAVAILABLE sets the shared connected
flag to TRUE (here: from false to true), while a publish failing with the
retryable code DEADLINE_EXCEEDED sets it to FALSE — the opposite of the
claimed behaviour on both branches; the error is re-raised in both cases. -/
theorem publish_fatal_error_sets_connected_true :
    droppedState.connected = false
    ∧ is_grpc_fatal_error StatusCode.UNAVAILABLE = true
    ∧ (set_float_datapoint unavailableStub droppedState "Vehicle.Speed" 42).state.connected = true
    ∧ (set_float_datapoint unavailableStub droppedState "Vehicle.Speed" 42).error
        = some (PublishFailure.RpcFailure StatusCode.UNAVAILABLE)
    ∧ connectedState.connected = true
    ∧ is_grpc_fatal_error StatusCode.DEADLINE_EXCEEDED = false
    ∧ (set_float_datapoint deadlineStub connectedState "Vehicle.Speed" 42).state.connected = false
    ∧ (set_float_datapoint deadlineStub connectedState "Vehicle.Speed" 42).error
        = some (PublishFailure.RpcFailure StatusCode.DEADLINE_EXCEEDED) := by
  decide

/-- C2 counterexample: after a TRANSIENT_FAILURE notification received
while connected, the name-to-identifier mapping is NOT cleared — both
previously registered identifiers are still present, refuting the claim
that no identifier from a prior registration remains available. -/
theorem handler_disconnect_keeps_ids_cex :
    connectedState.connected = true
    ∧ (on_broker_connectivity_change demoBroker connectedState
        ChannelConnectivity.TRANSIENT_FAILURE).fst.ids
        = [("Vehicle.Speed", 1), ("Vehicle.Acceleration", 2)]
    ∧ (on_broker_connectivity_change demoBroker connectedState
        ChannelConnectivity.TRANSIENT_FAILURE).fst.ids ≠ [] := by
  decide

/-- C2 (amended): on every connectivity-change notification to a state
other than READY/IDLE received while previously connected, the handler
sets connected=false and registered=false, but the name-to-identifier
mapping is left unchanged — identifiers from the prior registration stay
in `_ids` (only the flags mark them stale). -/
theorem handler_disconnect_resets_flags_keeps_ids (broker : Broker)
    (s : CarSimState) (c : ChannelConnectivity)
    (hc : ¬(c = ChannelConnectivity.READY ∨ c = ChannelConnectivity.IDLE))
    (h : s.connected = true) :
    on_broker_connectivity_change broker s c
      = ({ s with connected := false, registered := false }, []) := by
  have hr : isReadyState c = false := by
    cases c <;> revert hc <;> decide
  exact handler_nonready_eq broker s c hr

/-- C2 witness: instantiation of the amended claim at a concrete
disconnect. -/
theorem handler_disconnect_resets_flags_keeps_ids_witness :
    (¬(ChannelConnectivity.TRANSIENT_FAILURE = ChannelConnectivity.READY
        ∨ ChannelConnectivity.TRANSIENT_FAILURE = ChannelConnectivity.IDLE))
    ∧ connectedState.connected = true
    ∧ on_broker_connectivity_change demoBroker connectedState
        ChannelConnectivity.TRANSIENT_FAILURE
        = ({ connectedState with connected := false, registered := false }, []) :=
  ⟨by decide, rfl,
    handler_disconnect_resets_flags_keeps_ids demoBroker connectedState
      ChannelConnectivity.TRANSIENT_FAILURE (by decide) rfl⟩

/-- C3 counterexample: one run of `register_datapoints` against an
always-accepting broker sends TWO registration requests, each containing a
single data-point spec — not one request containing all specs. -/
theorem register_datapoints_two_requests_cex :
    (register_datapoints demoBroker initState).requests.length = 2
    ∧ (register_datapoints demoBroker initState).requests.length ≠ 1
    ∧ ((register_datapoints demoBroker initState).requests.map
        (fun r => r.list.length)) = [1, 1] := by
  decide

/-- C3 (amended): each run of `register_datapoints` sends one registration
request PER data-point spec, each containing exactly that one spec, in
configuration order: both singleton requests when the first call succeeds,
only the `Vehicle.Speed` request when it fails. -/
theorem register_datapoints_one_request_per_spec (broker : Broker) (s : CarSimState) :
    ((register_datapoints broker s).requests.map (fun r => r.list.map (fun m => m.name))
        = [["Vehicle.Speed"], ["Vehicle.Acceleration"]])
    ∨ ((register_datapoints broker s).requests.map (fun r => r.list.map (fun m => m.name))
        = [["Vehicle.Speed"]]) := by
  cases he : (regCall1 broker s).error with
  | some e =>
      right
      rw [register_datapoints_eq_fail1 broker s e he]
      simp [regCall1, _register_request, regRequest]
  | none =>
      left
      rw [register_datapoints_eq_ok1 broker s he]
      simp [regCall1, regCall2, _register_request, regRequest]

/-- C4 counterexample: against a broker that accepts `Vehicle.Speed` but
fails `Vehicle.Acceleration`, the registration run fails as a whole yet
leaves a partially populated mapping: the new `Vehicle.Speed` identifier
is retained, refuting all-or-none registration. -/
theorem register_datapoints_partial_mapping_cex :
    (register_datapoints partialBroker initState).error
        = some (RegFailure.RpcFailure StatusCode.UNAVAILABLE)
    ∧ initState.ids = []
    ∧ (register_datapoints partialBroker initState).state.ids = [("Vehicle.Speed", 1)]
    ∧ (register_datapoints partialBroker initState).state.ids ≠ initState.ids := by
  decide

/-- C4 (amended): registration is not all-or-none. On success both
identifiers are captured; on failure the retained mapping is either
unchanged (first call failed) or extended with exactly the
`Vehicle.Speed` identifier captured before the second call failed — a
partially populated mapping that remains observable. -/
theorem register_datapoints_capture_shape (broker : Broker) (s : CarSimState) :
    ((register_datapoints broker s).error = none
      ∧ ∃ v w, (register_datapoints broker s).state.ids
          = dictSet (dictSet s.ids "Vehicle.Speed" v) "Vehicle.Acceleration" w)
    ∨ ((register_datapoints broker s).error.isSome = true
      ∧ ((register_datapoints broker s).state.ids = s.ids
          ∨ ∃ v, (register_datapoints broker s).state.ids
              = dictSet s.ids "Vehicle.Speed" v)) := by
  cases he : (regCall1 broker s).error with
  | some e =>
      right
      rw [register_datapoints_eq_fail1 broker s e he]
      rcases regCall1_cases broker s with ⟨_, hs1⟩ | ⟨hn, _⟩
      · exact ⟨rfl, Or.inl (by rw [hs1])⟩
      · rw [he] at hn; exact nomatch hn
  | none =>
      rcases regCall1_cases broker s with ⟨hsome, _⟩ | ⟨_, v, hs1⟩
      · simp [he] at hsome
      · cases he2 : (regCall2 broker s).error with
        | some e2 =>
            right
            rw [register_datapoints_eq_ok1 broker s he]
            refine ⟨by rw [he2]; rfl, Or.inr ⟨v, ?_⟩⟩
            rcases regCall2_cases broker s with ⟨_, hs2⟩ | ⟨hn2, _⟩
            · rw [hs2, hs1]
            · rw [he2] at hn2; exact nomatch hn2
        | none =>
            left
            rw [register_datapoints_eq_ok1 broker s he]
            rcases regCall2_cases broker s with ⟨hsome2, _⟩ | ⟨_, w, hs2⟩
            · simp [he2] at hsome2
            · refine ⟨he2, v, w, ?_⟩
              rw [hs2, hs1]

/-- C5: over any sequence of connectivity notifications processed by the
handler and passes of the supervisor loop, `_registered` is true only if
the most recent notification reported a ready state (READY or IDLE) and a
registration call has completed successfully since the most recent
transition into the connected state. -/
theorem registered_only_after_ready_and_registration (events : List Event)
    (h : (runEvents events).sim.registered = true) :
    (∃ c, (runEvents events).lastNotify = some c ∧ isReadyState c = true)
    ∧ (runEvents events).regSinceTransition = true := by
  obtain ⟨h1, h2⟩ := runEvents_inv events
  obtain ⟨hcon, hsince⟩ := h1 h
  exact ⟨h2 hcon, hsince⟩

/-- C5 witness: after a READY notification whose inline registration
succeeds, `_registered` is true and the conclusion holds. -/
theorem registered_only_after_ready_and_registration_witness :
    (runEvents [Event.Notify ChannelConnectivity.READY demoBroker]).sim.registered = true
    ∧ ((∃ c, (runEvents [Event.Notify ChannelConnectivity.READY demoBroker]).lastNotify
          = some c ∧ isReadyState c = true)
        ∧ (runEvents [Event.Notify ChannelConnectivity.READY demoBroker]).regSinceTransition
          = true) :=
  ⟨rfl, registered_only_after_ready_and_registration
    [Event.Notify ChannelConnectivity.READY demoBroker] rfl⟩

/-- C6: failing evaluation for the shutdown claim. `close` only closes the
channel: it leaves every `CarSim` attribute — in particular `_shutdown` —
unchanged, and no operation (connectivity handler, loop pass, publish)
ever changes `_shutdown` either; hence the loop guard
`while self._shutdown is False` stays true forever and the loop cannot
exit after `close`. (The claim's second half — no error stops the loop —
does hold: every operation returns normally.) -/
theorem close_never_sets_shutdown_flag (f : CarSimFull) (broker : Broker)
    (c : ChannelConnectivity) (stub : UpdateStub) (name : String) (value : Int) :
    (close f).sim = f.sim
    ∧ run_guard (close f).sim = run_guard f.sim
    ∧ (on_broker_connectivity_change broker f.sim c).fst.shutdown_flag = f.sim.shutdown_flag
    ∧ (run_iteration broker f.sim).shutdown_flag = f.sim.shutdown_flag
    ∧ (set_float_datapoint stub f.sim name value).state.shutdown_flag = f.sim.shutdown_flag := by
  refine ⟨rfl, rfl, ?_, ?_, ?_⟩
  · cases hr : isReadyState c with
    | false => rw [handler_nonready_eq broker f.sim c hr]
    | true =>
        cases hcon : f.sim.connected with
        | true => rw [handler_ready_connected_eq broker f.sim c hr hcon]
        | false =>
            cases he : (register_datapoints broker f.sim).error with
            | none =>
                rw [handler_ready_unconnected_success_eq broker f.sim c hr hcon he]
                exact (register_datapoints_flags broker f.sim).2.2
            | some e =>
                rw [handler_ready_unconnected_failure_eq broker f.sim c e hr hcon he]
                exact (register_datapoints_flags broker f.sim).2.2
  · cases hcon : f.sim.connected with
    | false => rw [run_iteration_unconnected_eq broker f.sim hcon]
    | true =>
        cases hreg : f.sim.registered with
        | true => rw [run_iteration_registered_eq broker f.sim hcon hreg]
        | false =>
            cases he : (register_datapoints broker f.sim).error with
            | none =>
                rw [run_iteration_success_eq broker f.sim hcon hreg he]
                exact (register_datapoints_flags broker f.sim).2.2
            | some e =>
                rw [run_iteration_failure_eq broker f.sim e hcon hreg he]
                exact (register_datapoints_flags broker f.sim).2.2
  · cases hl : f.sim.ids.lookup name with
    | none => simp [set_float_datapoint, hl]
    | some i =>
        cases hs : stub { datapoints := [(i, value)] } with
        | none => simp [set_float_datapoint, hl, hs]
        | some code => simp [set_float_datapoint, hl, hs]

/-- C7: the failure classifier returns Fatal (true) exactly for the codes
UNAVAILABLE (service unavailable), UNKNOWN, UNAUTHENTICATED and INTERNAL
(internal error), and Retryable (false) for every other status code; it
is a pure function of the status code alone and touches no connection
state. -/
theorem is_grpc_fatal_error_exactly_four_codes (e : StatusCode) :
    is_grpc_fatal_error e = true ↔
      (e = StatusCode.UNAVAILABLE ∨ e = StatusCode.UNKNOWN
        ∨ e = StatusCode.UNAUTHENTICATED ∨ e = StatusCode.INTERNAL) := by
  cases e <;> decide

/-- C8: publishing a name absent from the registration mapping fails with
the `KeyError` raised by `self._ids[name]` before any update request is
built or sent: the state is unchanged, no RPC is issued, and the surfaced
failure is the caller-misuse `KeyFailure`, distinct by construction from
a transport `RpcFailure`. -/
theorem publish_unregistered_name_key_failure (stub : UpdateStub)
    (s : CarSimState) (name : String) (value : Int)
    (h : s.ids.lookup name = none) :
    set_float_datapoint stub s name value
      = { state := s, requests := [], error := some (PublishFailure.KeyFailure name) } := by
  simp [set_float_datapoint, h]

/-- C8 witness: a fresh `CarSim` has no identifier for `Vehicle.Speed`,
and publishing it fails with the KeyFailure without issuing an RPC. -/
theorem publish_unregistered_name_key_failure_witness :
    initState.ids.lookup "Vehicle.Speed" = none
    ∧ set_float_datapoint okStub initState "Vehicle.Speed" 42
        = { state := initState, requests := [],
            error := some (PublishFailure.KeyFailure "Vehicle.Speed") } :=
  ⟨rfl, publish_unregistered_name_key_failure okStub initState "Vehicle.Speed" 42 rfl⟩

/-- C10: a READY or IDLE notification that arrives while `_connected` is
already true is a complete no-op on supervisor state: the handler returns
the state unchanged (flags and identifier mapping included) and sends no
registration request. -/
theorem handler_ready_while_connected_noop (broker : Broker) (s : CarSimState)
    (c : ChannelConnectivity)
    (hc : c = ChannelConnectivity.READY ∨ c = ChannelConnectivity.IDLE)
    (h : s.connected = true) :
    on_broker_connectivity_change broker s c = (s, []) := by
  have hr : isReadyState c = true := by rcases hc with rfl | rfl <;> rfl
  exact handler_ready_connected_eq broker s c hr h

/-- C10 witness: an IDLE notification while connected changes nothing and
sends nothing. -/
theorem handler_ready_while_connected_noop_witness :
    (ChannelConnectivity.IDLE = ChannelConnectivity.READY
      ∨ ChannelConnectivity.IDLE = ChannelConnectivity.IDLE)
    ∧ connectedState.connected = true
    ∧ on_broker_connectivity_change demoBroker connectedState ChannelConnectivity.IDLE
        = (connectedState, []) :=
  ⟨Or.inr rfl, rfl,
    handler_ready_while_connected_noop demoBroker connectedState
      ChannelConnectivity.IDLE (Or.inr rfl) rfl⟩

end CarSim
